import Mathlib

namespace OwlWorkshop

/-!
Shallow embedding of the task scheduling and execution core of the
owl-workshop repository: `backend/services/task_service.py`,
`backend/services/gpu_service.py`, and the retry endpoint of
`backend/api/task_routes.py`, over the record types of
`backend/models/database_models.py`.

The Supabase store is modelled as an in-memory list of records (`DB`);
a query `.eq('id', tid)` is a `find?`/`filter` over that list, an
`.update(...)` maps the update over every matching row and returns the
updated rows (`result.data`).  Timestamps are abstract naturals,
`progress` (a Python float holding exact values like `(k+1)/n*100`) is a
rational, and the opaque `result` payload is a string.
-/

/-- `TaskStatus` of `database_models.py`. -/
inductive TaskStatus where
  | pending
  | running
  | completed
  | failed
  | cancelled
deriving DecidableEq, Repr

/-- The fields of the `Task` model that the scheduling core reads or writes. -/
structure Task where
  id : String
  user_id : String
  task_type : String
  status : TaskStatus
  progress : ℚ
  gpu_server_id : Option String
  started_at : Option Nat
  completed_at : Option Nat
  error_message : Option String
  result : Option String
deriving DecidableEq, Repr

/-- The fields of the `GPUServer` model that the scheduling core reads.
`gpu_count` is `Optional[int]` in the source; a `None` count makes the
comparison in `_check_server_availability` raise, which that method
catches and turns into `False`. -/
structure GPUServer where
  id : String
  name : String
  is_active : Bool
  gpu_count : Option Nat
deriving DecidableEq, Repr

/-- The durable store: the `tasks` and `gpu_servers` tables. -/
structure DB where
  tasks : List Task
  servers : List GPUServer
deriving DecidableEq, Repr

/-- Row filter of `.eq('id', task_id)` plus the optional `.eq('user_id', ...)`. -/
def taskMatches (tid : String) (uid : Option String) (t : Task) : Bool :=
  t.id == tid && (match uid with | some u => t.user_id == u | none => true)

/-- `TaskService.get_task`: first row matching id (and user when given);
a store failure is caught inside and reported as `None` as well. -/
def get_task (db : DB) (tid : String) (uid : Option String) : Option Task :=
  db.tasks.find? (taskMatches tid uid)

/-- `get_task` with no user filter (the internal call sites). -/
def getTaskDB (db : DB) (tid : String) : Option Task :=
  get_task db tid none

def statusOf (db : DB) (tid : String) : Option TaskStatus :=
  (getTaskDB db tid).map Task.status

def progressOf (db : DB) (tid : String) : Option ℚ :=
  (getTaskDB db tid).map Task.progress

def errorOf (db : DB) (tid : String) : Option (Option String) :=
  (getTaskDB db tid).map Task.error_message

/-- The occupancy query of `GPUService._check_server_availability`:
`tasks` rows with `gpu_server_id = server.id` and `status = 'running'`. -/
def runningTasksOn (db : DB) (sid : String) : Nat :=
  (db.tasks.filter (fun t =>
    t.gpu_server_id == some sid && t.status == TaskStatus.running)).length

/-- `GPUService._check_server_availability`: available iff the running-task
count is strictly below `gpu_count`; any exception (e.g. comparing against a
`None` count) is caught and yields `false`. -/
def check_server_availability (db : DB) (server : GPUServer) : Bool :=
  match server.gpu_count with
  | some g => decide (runningTasksOn db server.id < g)
  | none => false

/-- The `gpu_servers` rows with `is_active = True`, in stored order. -/
def activeServers (db : DB) : List GPUServer :=
  db.servers.filter (fun s => s.is_active)

/-- `GPUService.find_available_server`: first active server passing
`_check_server_availability`; `None` when none does. -/
def find_available_server (db : DB) : Option GPUServer :=
  (activeServers db).find? (fun s => check_server_availability db s)

/-- Written from the spec text of §4.3 (Allocator), for comparison with
`find_available_server`: the first active worker that is both under
capacity and reachable via the probe, probing only workers that passed
the capacity filter. -/
def selectWorkerSpec (db : DB) (probe : GPUServer → Bool) : Option GPUServer :=
  (activeServers db).find? (fun s => check_server_availability db s && probe s)

/-! ### Generic list lemmas used throughout -/

theorem find?_first {α : Type} (p : α → Bool) :
    ∀ (l : List α) (a : α), l.find? p = some a →
      ∃ pre post, l = pre ++ a :: post ∧ (∀ x ∈ pre, p x = false) ∧ p a = true := by
  intro l
  induction l with
  | nil => intro a h; simp [List.find?] at h
  | cons b t ih =>
    intro a h
    by_cases hb : p b = true
    · rw [List.find?_cons_of_pos _ hb] at h
      obtain rfl : b = a := by injection h
      exact ⟨[], t, rfl, by simp, hb⟩
    · rw [List.find?_cons_of_neg _ (by simpa using hb)] at h
      obtain ⟨pre, post, hl, hpre, hpa⟩ := ih a h
      refine ⟨b :: pre, post, by simp [hl], ?_, hpa⟩
      intro x hx
      rcases List.mem_cons.mp hx with rfl | hx
      · simpa using hb
      · exact hpre x hx

theorem find?_map_upd {α : Type} (p : α → Bool) (f : α → α)
    (hf : ∀ x, p x = true → p (f x) = true) :
    ∀ l : List α,
      (l.map (fun x => if p x then f x else x)).find? p = (l.find? p).map f := by
  intro l
  induction l with
  | nil => rfl
  | cons a t ih =>
    by_cases ha : p a = true
    · simp only [List.map_cons, ha, if_pos]
      rw [List.find?_cons_of_pos _ (hf a ha), List.find?_cons_of_pos _ ha]
      rfl
    · have ha' : p a = false := by simpa using ha
      simp only [List.map_cons, ha', Bool.false_eq_true, if_neg, ite_false]
      rw [List.find?_cons_of_neg _ (by simp [ha']), List.find?_cons_of_neg _ (by simp [ha'])]
      exact ih

theorem any_of_find? {α : Type} (p : α → Bool) (l : List α) (a : α)
    (h : l.find? p = some a) : l.any p = true :=
  List.any_eq_true.mpr ⟨a, List.mem_of_find?_eq_some h, List.find?_some h⟩

/-! ### C1 -/

/-- A database with a single active, under-capacity server and no tasks. -/
def exServer1 : GPUServer := ⟨"s1", "alpha", true, some 1⟩

def exDB1 : DB := ⟨[], [exServer1]⟩

/-- C1 counterexample: the spec's allocator consults a reachability probe,
but `find_available_server` never probes.  With a probe that reports every
worker unreachable, the spec selects no worker while the code still returns
the under-capacity server, so the claimed equivalence fails. -/
theorem c1_counterexample :
    ¬ (find_available_server exDB1 = selectWorkerSpec exDB1 (fun _ => false)) := by
  decide

/-- C1 amended: `find_available_server` is a pure first-fit over the active
servers in stored order using only the capacity check — it returns the first
active server whose running-task count is below its `gpu_count`, with no
reachability probe; it returns `none` exactly when no active server passes
the capacity check. -/
theorem c1_first_fit (db : DB) :
    (find_available_server db = none →
      ∀ s ∈ activeServers db, check_server_availability db s = false) ∧
    (∀ s, find_available_server db = some s →
      s ∈ activeServers db ∧ check_server_availability db s = true ∧
      ∃ pre post, activeServers db = pre ++ s :: post ∧
        ∀ x ∈ pre, check_server_availability db x = false) := by
  constructor
  · intro hnone s hs
    have := List.find?_eq_none.mp hnone s hs
    simpa using this
  · intro s hsome
    obtain ⟨pre, post, hl, hpre, hps⟩ :=
      find?_first (fun s => check_server_availability db s) (activeServers db) s hsome
    exact ⟨List.mem_of_find?_eq_some hsome, hps, pre, post, hl, hpre⟩

/-- Witness for `c1_first_fit` at the concrete database `exDB1`, where the
allocator returns the single active server. -/
theorem c1_first_fit_witness :
    exServer1 ∈ activeServers exDB1 ∧
      check_server_availability exDB1 exServer1 = true := by
  have h := (c1_first_fit exDB1).2 exServer1 (by decide)
  exact ⟨h.1, h.2.1⟩

/-! ### Reconciler writes: `TaskService._update_task_status` / `_update_task_progress` -/

/-- The optional `extra_data` keys that call sites of `_update_task_status`
actually pass (`gpu_server_id`, `started_at`, `error_message`,
`completed_at`, `progress`); a `none` field is absent from the dict. -/
structure ExtraData where
  gpu_server_id : Option String
  started_at : Option Nat
  error_message : Option String
  completed_at : Option Nat
  progress : Option ℚ
deriving DecidableEq, Repr

def noExtra : ExtraData := ⟨none, none, none, none, none⟩

/-- Merging `extra_data` into the update dict: each present key overwrites
the corresponding column. -/
def applyExtra (e : ExtraData) (t : Task) : Task :=
  { t with
    gpu_server_id := match e.gpu_server_id with | some v => some v | none => t.gpu_server_id,
    started_at := match e.started_at with | some v => some v | none => t.started_at,
    error_message := match e.error_message with | some v => some v | none => t.error_message,
    completed_at := match e.completed_at with | some v => some v | none => t.completed_at,
    progress := match e.progress with | some v => v | none => t.progress }

/-- `update(...).eq('id', tid)`: apply `f` to every row whose id matches. -/
def dbUpdateTask (db : DB) (tid : String) (f : Task → Task) : DB :=
  { db with tasks := db.tasks.map (fun t => if taskMatches tid none t then f t else t) }

/-- `TaskService._update_task_status`: writes `status` plus `extra_data`
unconditionally to every row with the given id; there is no check of the
stored status, and any store error is caught and swallowed. -/
def update_task_status (db : DB) (tid : String) (st : TaskStatus) (e : ExtraData) : DB :=
  dbUpdateTask db tid (fun t => applyExtra e { t with status := st })

/-- `TaskService._update_task_progress`: writes `progress` unconditionally;
any store error is caught and swallowed. -/
def update_task_progress (db : DB) (tid : String) (p : ℚ) : DB :=
  dbUpdateTask db tid (fun t => { t with progress := p })

theorem taskMatches_stable (tid : String) (uid : Option String) (f : Task → Task)
    (hid : ∀ t, (f t).id = t.id) (huser : ∀ t, (f t).user_id = t.user_id) :
    ∀ t, taskMatches tid uid t = true → taskMatches tid uid (f t) = true := by
  intro t h
  unfold taskMatches at h ⊢
  rw [hid, huser]
  exact h

/-- Reading a row back after `dbUpdateTask` on the same id. -/
theorem getTaskDB_dbUpdateTask (db : DB) (tid : String) (f : Task → Task)
    (hid : ∀ t, (f t).id = t.id) (huser : ∀ t, (f t).user_id = t.user_id) :
    getTaskDB (dbUpdateTask db tid f) tid = (getTaskDB db tid).map f := by
  unfold getTaskDB get_task dbUpdateTask
  exact find?_map_upd (taskMatches tid none) f
    (taskMatches_stable tid none f hid huser) db.tasks

theorem getTaskDB_update_task_status (db : DB) (tid : String) (st : TaskStatus)
    (e : ExtraData) :
    getTaskDB (update_task_status db tid st e) tid =
      (getTaskDB db tid).map (fun t => applyExtra e { t with status := st }) := by
  unfold update_task_status
  exact getTaskDB_dbUpdateTask db tid _ (fun t => rfl) (fun t => rfl)

theorem getTaskDB_update_task_progress (db : DB) (tid : String) (p : ℚ) :
    getTaskDB (update_task_progress db tid p) tid =
      (getTaskDB db tid).map (fun t => { t with progress := p }) := by
  unfold update_task_progress
  exact getTaskDB_dbUpdateTask db tid _ (fun t => rfl) (fun t => rfl)

/-! ### C2 -/

def isTerminal (st : TaskStatus) : Bool :=
  st == TaskStatus.completed || st == TaskStatus.failed || st == TaskStatus.cancelled

/-- A completed task with a populated terminal record. -/
def exTask2 : Task :=
  ⟨"t1", "u1", "training", TaskStatus.completed, 100, some "s1", some 3, some 9, none, some "ok"⟩

def exDB2 : DB := ⟨[exTask2], []⟩

/-- C2 counterexample: the stored task is terminal (`completed`), yet a
subsequent status write is not refused — the record does not keep its
terminal state, contradicting the claimed no-op. -/
theorem c2_counterexample :
    statusOf exDB2 "t1" = some TaskStatus.completed ∧
      statusOf (update_task_status exDB2 "t1" TaskStatus.running noExtra) "t1" =
        some TaskStatus.running := by
  decide

/-- C2 amended: `_update_task_status` and `_update_task_progress` apply their
writes unconditionally, even to a job whose stored status is terminal: after
a status write the stored status is the written one, and after a progress
write the stored progress is the written one.  (Only the claim's "no error
is raised to the caller" part survives: both methods swallow store errors.) -/
theorem c2_unconditional_write (db : DB) (tid : String) (st : TaskStatus)
    (e : ExtraData) (p : ℚ) (t : Task) (hfind : getTaskDB db tid = some t)
    (hterm : isTerminal t.status = true) :
    statusOf (update_task_status db tid st e) tid = some st ∧
      progressOf (update_task_progress db tid p) tid = some p := by
  constructor
  · unfold statusOf
    rw [getTaskDB_update_task_status, hfind]
    rfl
  · unfold progressOf
    rw [getTaskDB_update_task_progress, hfind]
    rfl

/-- Witness for `c2_unconditional_write` on the terminal task of `exDB2`. -/
theorem c2_unconditional_write_witness :
    statusOf (update_task_status exDB2 "t1" TaskStatus.running noExtra) "t1" =
      some TaskStatus.running ∧
    progressOf (update_task_progress exDB2 "t1" 50) "t1" = some 50 :=
  c2_unconditional_write exDB2 "t1" TaskStatus.running noExtra 50 exTask2
    (by decide) (by decide)

/-! ### Supervisor state: the `_running_tasks` dict and its asyncio tasks -/

/-- An asyncio execution unit created by `_schedule_task`.
`cancelRequested` records that `.cancel()` was called on it; `finished`
records that the coroutine has actually terminated. -/
structure ExecUnit where
  uid : Nat
  cancelRequested : Bool
  finished : Bool
deriving DecidableEq, Repr

/-- In-memory supervisor state: the `_running_tasks` dict (task id to
execution-unit id, at most one entry per key) plus every execution unit
created so far and a fresh-id counter. -/
structure SupState where
  runningTasks : List (String × Nat)
  units : List ExecUnit
  nextUid : Nat
deriving DecidableEq, Repr

/-- Whole-system state: durable store plus supervisor memory. -/
structure SysState where
  db : DB
  sup : SupState
deriving DecidableEq, Repr

def lookupHandle (sup : SupState) (tid : String) : Option Nat :=
  (sup.runningTasks.find? (fun p => p.1 == tid)).map (fun p => p.2)

/-- `.cancel()` on the unit with the given id. -/
def cancelUnitIn (units : List ExecUnit) (u : Nat) : List ExecUnit :=
  units.map (fun x => if x.uid == u then { x with cancelRequested := true } else x)

/-- The `if task_id in self._running_tasks:` block of `cancel_task`:
cancel the handle and delete the dict entry; no-op when absent. -/
def supRemove (sup : SupState) (tid : String) : SupState :=
  match sup.runningTasks.find? (fun p => p.1 == tid) with
  | some p =>
      { sup with
        runningTasks := sup.runningTasks.filter (fun q => ¬ (q.1 == tid)),
        units := cancelUnitIn sup.units p.2 }
  | none => sup

/-- The `update({'status': 'cancelled', ...}).eq('id', tid)` write of
`cancel_task` (plus its optional user filter). -/
def dbWriteCancelled (db : DB) (tid : String) (uid : Option String) : DB :=
  { db with tasks := db.tasks.map (fun t =>
      if taskMatches tid uid t then { t with status := TaskStatus.cancelled } else t) }

/-- `TaskService.cancel_task`.  `failRead` injects a store failure into the
initial `get_task` (which `get_task` itself catches, yielding `None`);
`failUpdate` injects a store failure into the cancelled-status update, which
the surrounding `try` catches, returning `False` — after the in-memory
handle has already been cancelled and removed.  On success the return value
is `bool(result.data)`: whether any row matched the update's filters. -/
def cancel_task (failRead failUpdate : Bool) (st : SysState) (tid : String)
    (uid : Option String) : Bool × SysState :=
  match (if failRead then none else get_task st.db tid uid) with
  | none => (false, st)
  | some t =>
    if isTerminal t.status then (false, st)
    else
      let sup' := supRemove st.sup tid
      if failUpdate then (false, { st with sup := sup' })
      else
        (st.db.tasks.any (taskMatches tid uid),
          { db := dbWriteCancelled st.db tid uid, sup := sup' })

/-! ### C3 -/

/-- A pending task that was never scheduled (no active handle). -/
def exTask3 : Task :=
  ⟨"t1", "u1", "training", TaskStatus.pending, 0, none, none, none, none, none⟩

def exSt3 : SysState := ⟨⟨[exTask3], []⟩, ⟨[], [], 0⟩⟩

/-- C3 counterexample: for a still-Pending job with no Active Job Handle the
claim requires `cancel` to return `false`; the code transitions it to
Cancelled and, because the update matched a row, returns `true`. -/
theorem c3_counterexample :
    statusOf exSt3.db "t1" = some TaskStatus.pending ∧
      lookupHandle exSt3.sup "t1" = none ∧
      (cancel_task false false exSt3 "t1" none).1 = true := by
  decide

theorem get_task_any (db : DB) (tid : String) (uid : Option String) (t : Task)
    (h : get_task db tid uid = some t) : db.tasks.any (taskMatches tid uid) = true :=
  any_of_find? _ db.tasks t h

/-- C3 amended: `cancel_task` returns `false` exactly for a missing or
already-terminal job (leaving the state unchanged); for any existing
non-terminal job — Pending included, whether or not an Active Job Handle
exists — it cancels and removes any handle, writes status Cancelled, and
returns `true`. -/
theorem c3_cancel_return (st : SysState) (tid : String) (uid : Option String) :
    (get_task st.db tid uid = none →
      cancel_task false false st tid uid = (false, st)) ∧
    (∀ t, get_task st.db tid uid = some t → isTerminal t.status = true →
      cancel_task false false st tid uid = (false, st)) ∧
    (∀ t, get_task st.db tid uid = some t → isTerminal t.status = false →
      cancel_task false false st tid uid =
        (true, ⟨dbWriteCancelled st.db tid uid, supRemove st.sup tid⟩)) := by
  refine ⟨?_, ?_, ?_⟩
  · intro hnone
    simp [cancel_task, hnone]
  · intro t hsome hterm
    simp [cancel_task, hsome, hterm]
  · intro t hsome hterm
    simp [cancel_task, hsome, hterm, get_task_any st.db tid uid t hsome]

/-- Witness for `c3_cancel_return`: cancelling the pending job of `exSt3`
returns `true` and writes Cancelled. -/
theorem c3_cancel_return_witness :
    cancel_task false false exSt3 "t1" none =
      (true, ⟨dbWriteCancelled exSt3.db "t1" none, supRemove exSt3.sup "t1"⟩) :=
  (c3_cancel_return exSt3 "t1" none).2.2 exTask3 (by decide) (by decide)

/-! ### C10 -/

/-- C10: `cancel_task` never raises: with a store failure injected into the
cancelled-status update, the exception is caught and reported as a `false`
return.  The operation is not atomic in that case: for a job with an Active
Job Handle, the handle has already been cancelled and removed from the
active set, while the durable record is left unchanged. -/
theorem c10_cancel_catches (st : SysState) (tid : String) (uid : Option String)
    (t : Task) (hsome : get_task st.db tid uid = some t)
    (hterm : isTerminal t.status = false) :
    cancel_task false true st tid uid = (false, ⟨st.db, supRemove st.sup tid⟩) ∧
      lookupHandle (supRemove st.sup tid) tid = none ∧
      (∀ b, cancel_task true b st tid uid = (false, st)) := by
  refine ⟨?_, ?_, ?_⟩
  · simp [cancel_task, hsome, hterm]
  · unfold lookupHandle supRemove
    cases h : st.sup.runningTasks.find? (fun p => p.1 == tid) with
    | none => simp [h]
    | some p =>
      simp only [h]
      rw [List.find?_eq_none.mpr]
      · rfl
      · intro q hq
        have := (List.mem_filter.mp hq).2
        simpa using this
  · intro b
    simp [cancel_task]

/-- A running task with an Active Job Handle, for the C10 witness. -/
def exTask10 : Task :=
  ⟨"t1", "u1", "training", TaskStatus.running, 30, some "s1", some 3, none, none, none⟩

def exSt10 : SysState := ⟨⟨[exTask10], []⟩, ⟨[("t1", 0)], [⟨0, false, false⟩], 1⟩⟩

/-- Witness for `c10_cancel_catches`: a failing status update makes `cancel`
return `false` even though the handle was already cancelled and removed. -/
theorem c10_cancel_catches_witness :
    cancel_task false true exSt10 "t1" none =
      (false, ⟨exSt10.db, supRemove exSt10.sup "t1"⟩) ∧
      lookupHandle (supRemove exSt10.sup "t1") "t1" = none ∧
      (∀ b, cancel_task true b exSt10 "t1" none = (false, exSt10)) :=
  c10_cancel_catches exSt10 "t1" none exTask10 (by decide) (by decide)

/-! ### C4: the handle-creating portion of `TaskService._schedule_task` -/

/-- Python dict assignment `self._running_tasks[task.id] = execution_task`:
replace the value when the key is present, append otherwise. -/
def dictSet (m : List (String × Nat)) (k : String) (v : Nat) : List (String × Nat) :=
  if m.any (fun p => p.1 == k) then m.map (fun p => if p.1 == k then (k, v) else p)
  else m ++ [(k, v)]

/-- The running-status write of `_schedule_task`
(`status='running', gpu_server_id, started_at`). -/
def writeRunning (db : DB) (tid sid : String) (t0 : Nat) : DB :=
  update_task_status db tid TaskStatus.running ⟨some sid, some t0, none, none, none⟩

/-- The handle-creating steps of `_schedule_task`: create the execution
coroutine (`asyncio.create_task`) and store it in `_running_tasks` — with
no check whether the id is already present. -/
def schedule_register (sup : SupState) (tid : String) : SupState :=
  { runningTasks := dictSet sup.runningTasks tid sup.nextUid,
    units := sup.units ++ [⟨sup.nextUid, false, false⟩],
    nextUid := sup.nextUid + 1 }

/-- `TaskService._schedule_task` up to the start of execution: find an
available server (none available leaves everything unchanged and the job
pending), write the running status, then create and register the execution
unit.  The subsequent await of the execution is modelled by the trace
functions below. -/
def schedule_task_step (st : SysState) (tid : String) (t0 : Nat) : SysState :=
  match find_available_server st.db with
  | none => st
  | some srv =>
      { db := writeRunning st.db tid srv.id t0,
        sup := schedule_register st.sup tid }

/-- A task already Running on a two-slot server, with its handle active. -/
def exTask4 : Task :=
  ⟨"t1", "u1", "training", TaskStatus.running, 30, some "s1", some 3, none, none, none⟩

def exSt4 : SysState :=
  ⟨⟨[exTask4], [⟨"s1", "alpha", true, some 2⟩]⟩, ⟨[("t1", 0)], [⟨0, false, false⟩], 1⟩⟩

/-- C4 counterexample: scheduling a job whose id already has an Active Job
Handle creates a second execution unit and replaces the stored handle
(unit 0 is supplanted by unit 1), contradicting the claimed
no-second-handle guard. -/
theorem c4_counterexample :
    lookupHandle exSt4.sup "t1" = some 0 ∧
      (schedule_task_step exSt4 "t1" 5).sup.units.length = 2 ∧
      lookupHandle (schedule_task_step exSt4 "t1" 5).sup "t1" = some 1 := by
  decide

theorem filter_map_upd_length {α : Type} (p : α → Bool) (f : α → α)
    (hf : ∀ x, p x = true → p (f x) = true) :
    ∀ l : List α,
      ((l.map (fun x => if p x then f x else x)).filter p).length = (l.filter p).length := by
  intro l
  induction l with
  | nil => rfl
  | cons a t ih =>
    by_cases ha : p a = true
    · simp only [List.map_cons, ha, if_pos, List.filter_cons, hf a ha, List.length_cons, ih]
    · have ha' : p a = false := by simpa using ha
      simp only [List.map_cons, ha', Bool.false_eq_true, if_neg, ite_false,
        List.filter_cons, ih]

/-- C4 amended: when a server is available and the job id is already present
in `_running_tasks`, `_schedule_task` does create a second execution unit
and replaces the stored handle with it: the unit count grows by one, the id
now maps to the fresh unit, and the previous unit is no longer tracked.
Only the cardinality part of the claim survives: the dict keeps a single
entry per id. -/
theorem c4_replaces_handle (st : SysState) (tid : String) (t0 : Nat)
    (srv : GPUServer) (hsrv : find_available_server st.db = some srv)
    (h : Nat) (hh : lookupHandle st.sup tid = some h) :
    (schedule_task_step st tid t0).sup.units.length = st.sup.units.length + 1 ∧
      lookupHandle (schedule_task_step st tid t0).sup tid = some st.sup.nextUid ∧
      ((schedule_task_step st tid t0).sup.runningTasks.filter (fun p => p.1 == tid)).length =
        (st.sup.runningTasks.filter (fun p => p.1 == tid)).length := by
  have hfind : ∃ q, st.sup.runningTasks.find? (fun p => p.1 == tid) = some q := by
    unfold lookupHandle at hh
    cases hq : st.sup.runningTasks.find? (fun p => p.1 == tid) with
    | none => rw [hq] at hh; simp at hh
    | some q => exact ⟨q, rfl⟩
  obtain ⟨q, hq⟩ := hfind
  have hany : st.sup.runningTasks.any (fun p => p.1 == tid) = true :=
    any_of_find? _ _ q hq
  have hset : dictSet st.sup.runningTasks tid st.sup.nextUid =
      st.sup.runningTasks.map
        (fun p => if p.1 == tid then (tid, st.sup.nextUid) else p) := by
    unfold dictSet
    rw [if_pos hany]
  refine ⟨?_, ?_, ?_⟩
  · simp [schedule_task_step, hsrv, schedule_register]
  · simp only [schedule_task_step, hsrv, schedule_register, lookupHandle, hset]
    rw [find?_map_upd (fun p => p.1 == tid)
      (fun _ => (tid, st.sup.nextUid)) (fun x _ => by simp), hq]
    rfl
  · simp only [schedule_task_step, hsrv, schedule_register, hset]
    exact filter_map_upd_length (fun p => p.1 == tid)
      (fun _ => (tid, st.sup.nextUid)) (fun x _ => by simp) st.sup.runningTasks

/-- Witness for `c4_replaces_handle` on `exSt4`. -/
theorem c4_replaces_handle_witness :
    (schedule_task_step exSt4 "t1" 5).sup.units.length = exSt4.sup.units.length + 1 ∧
      lookupHandle (schedule_task_step exSt4 "t1" 5).sup "t1" = some exSt4.sup.nextUid ∧
      ((schedule_task_step exSt4 "t1" 5).sup.runningTasks.filter (fun p => p.1 == "t1")).length =
        (exSt4.sup.runningTasks.filter (fun p => p.1 == "t1")).length :=
  c4_replaces_handle exSt4 "t1" 5 ⟨"s1", "alpha", true, some 2⟩ (by decide) 0 (by decide)

/-! ### C9: `TaskService.stop_all_tasks` -/

/-- `TaskService.stop_all_tasks`: call `.cancel()` on every tracked
execution unit, then clear the dict.  There is no await: the function
returns without waiting for any unit to terminate, so `finished` flags are
untouched. -/
def stop_all_tasks (sup : SupState) : SupState :=
  { runningTasks := [],
    units := sup.units.map (fun u =>
      if sup.runningTasks.any (fun p => p.2 == u.uid) then
        { u with cancelRequested := true }
      else u),
    nextUid := sup.nextUid }

/-- One job mid-execution: its unit is neither cancelled nor finished. -/
def exSup9 : SupState := ⟨[("t1", 0)], [⟨0, false, false⟩], 1⟩

/-- C9 counterexample: after `stop_all_tasks` returns, the active set is
empty, but the execution unit of the previously active job has only had
cancellation requested — it has not terminated (`finished = false`),
contradicting the claim that shutdown waits for every unit to terminate
before returning. -/
theorem c9_counterexample :
    stop_all_tasks exSup9 = ⟨[], [⟨0, true, false⟩], 1⟩ ∧
      (stop_all_tasks exSup9).units.all (fun u => u.finished) = false := by
  decide

/-- C9 amended: `stop_all_tasks` raises the cancellation signal on every
tracked execution unit and clears the active set, but returns without
waiting: every unit survives with its `finished` flag unchanged (and its
`cancelRequested` flag set when it was tracked). -/
theorem c9_no_wait (sup : SupState) (u : ExecUnit) (hu : u ∈ sup.units) :
    (stop_all_tasks sup).runningTasks = [] ∧
      ∃ u', u' ∈ (stop_all_tasks sup).units ∧ u'.uid = u.uid ∧
        u'.finished = u.finished ∧
        (sup.runningTasks.any (fun p => p.2 == u.uid) = true →
          u'.cancelRequested = true) := by
  refine ⟨rfl, ?_⟩
  by_cases h : sup.runningTasks.any (fun p => p.2 == u.uid) = true
  · refine ⟨{ u with cancelRequested := true }, ?_, rfl, rfl, fun _ => rfl⟩
    simp only [stop_all_tasks]
    exact List.mem_map.mpr ⟨u, hu, by simp [h]⟩
  · refine ⟨u, ?_, rfl, rfl, fun hc => absurd hc h⟩
    simp only [stop_all_tasks]
    refine List.mem_map.mpr ⟨u, hu, ?_⟩
    have h' : sup.runningTasks.any (fun p => p.2 == u.uid) = false :=
      Bool.eq_false_iff.mpr h
    simp [h']

/-- Witness for `c9_no_wait` on `exSup9`. -/
theorem c9_no_wait_witness :
    (stop_all_tasks exSup9).runningTasks = [] ∧
      ∃ u', u' ∈ (stop_all_tasks exSup9).units ∧ u'.uid = 0 ∧
        u'.finished = false ∧
        (exSup9.runningTasks.any (fun p => p.2 == 0) = true →
          u'.cancelRequested = true) :=
  c9_no_wait exSup9 ⟨0, false, false⟩ (by decide)

/-! ### Execution: `TaskService._execute_task` and the per-job write trace -/

/-- Step counts of the three `_execute_*` routines dispatched by
`_execute_task`; `none` for an unknown task type (which raises before any
step runs). -/
def totalSteps : String → Option Nat
  | "training" => some 100
  | "inference" => some 50
  | "data_processing" => some 20
  | _ => none

/-- The message of `raise Exception(f"不支持的任务类型: ...")`. -/
def unknownTypeMsg (ty : String) : String := "不支持的任务类型: " ++ ty

/-- Progress reported after step `k` (0-based) of `n`:
`(step + 1) / total * 100`. -/
def stepProgress (k n : Nat) : ℚ := (((k + 1 : Nat) : ℚ) / (n : ℚ)) * 100

/-- One durable write of the supervisor path for a single job. -/
inductive Write where
  | runningW (sid : String) (t0 : Nat)
  | progressW (p : ℚ)
  | completedW (t1 : Nat)
  | failedW (msg : String) (t1 : Nat)
deriving DecidableEq, Repr

/-- The progress writes of the first `c` steps of an `n`-step routine. -/
def progressWrites (c n : Nat) : List Write :=
  (List.range c).map (fun k => Write.progressW (stepProgress k n))

/-- The per-job durable write sequence of `_schedule_task` awaiting
`_execute_task`, for a job that got a server.  `cancelAt = some c` means
cancellation is requested after `c` completed steps: the loop's membership
check raises `asyncio.CancelledError`, which `except Exception` in
`_execute_task` does not catch (it is a `BaseException`), and which
`_schedule_task` catches silently — so the supervisor performs no terminal
write on cancellation.  An unknown type raises an ordinary `Exception`
before any step: `_execute_task` writes `failed` and re-raises, and
`_schedule_task`'s handler writes `failed` a second time. -/
def supervisorTrace (ty sid : String) (cancelAt : Option Nat) (t0 t1 : Nat) : List Write :=
  match totalSteps ty with
  | none =>
      [Write.runningW sid t0, Write.failedW (unknownTypeMsg ty) t1,
        Write.failedW (unknownTypeMsg ty) t1]
  | some n =>
    match cancelAt with
    | some c =>
        if c < n then Write.runningW sid t0 :: progressWrites c n
        else Write.runningW sid t0 :: progressWrites n n ++ [Write.completedW t1]
    | none => Write.runningW sid t0 :: progressWrites n n ++ [Write.completedW t1]

def isProgW : Write → Bool
  | Write.progressW _ => true
  | _ => false

def isTermW : Write → Bool
  | Write.completedW _ => true
  | Write.failedW _ _ => true
  | _ => false

/-- Trace shape `running-write · progress-writes · terminal-writes`. -/
def shapeOKW : List Write → Bool
  | Write.runningW _ _ :: rest => (rest.dropWhile isProgW).all isTermW
  | _ => false

def countTermW (l : List Write) : Nat := (l.filter isTermW).length

theorem progressWrites_all_prog (c n : Nat) :
    ∀ w ∈ progressWrites c n, isProgW w = true := by
  intro w hw
  obtain ⟨k, _, rfl⟩ := List.mem_map.mp hw
  rfl

theorem dropWhile_append_of_all {α : Type} (p : α → Bool) (l1 l2 : List α)
    (h : ∀ x ∈ l1, p x = true) :
    (l1 ++ l2).dropWhile p = l2.dropWhile p := by
  induction l1 with
  | nil => rfl
  | cons a t ih =>
    have ha := h a (List.mem_cons_self a t)
    simp only [List.cons_append, List.dropWhile_cons, ha, if_pos]
    exact ih (fun x hx => h x (List.mem_cons_of_mem a hx))

theorem filter_eq_nil_of_all_neg {α : Type} (p : α → Bool) (l : List α)
    (h : ∀ x ∈ l, p x = false) : l.filter p = [] := by
  induction l with
  | nil => rfl
  | cons a t ih =>
    have ha := h a (List.mem_cons_self a t)
    simp only [List.filter_cons, ha, Bool.false_eq_true, ite_false]
    exact ih (fun x hx => h x (List.mem_cons_of_mem a hx))

theorem countTermW_progressWrites (c n : Nat) : countTermW (progressWrites c n) = 0 := by
  unfold countTermW
  rw [filter_eq_nil_of_all_neg]
  · rfl
  · intro x hx
    obtain ⟨k, _, rfl⟩ := List.mem_map.mp hx
    rfl

/-! ### C6 -/

/-- C6 counterexample: for a job of unknown type the supervisor path writes
the terminal `failed` record twice (once in `_execute_task`'s handler, once
in `_schedule_task`'s), so the claimed `running → progress* → exactly one
terminal write` ordering fails. -/
theorem c6_counterexample :
    ¬ ((supervisorTrace "quantum" "s1" none 0 1).head? =
          some (Write.runningW "s1" 0) ∧
        shapeOKW (supervisorTrace "quantum" "s1" none 0 1) = true ∧
        countTermW (supervisorTrace "quantum" "s1" none 0 1) = 1) := by
  decide

/-- C6 amended: the Running write (with worker id and start time) is always
the first durable write, and the sequence is running-write, then progress
writes, then only terminal writes — but the terminal-write count is 1 only
on the success path: an unknown-type failure produces two Failed writes,
and a cancellation observed before completion produces no terminal write
from the supervisor (the Cancelled write comes from the cancel path). -/
theorem c6_trace_shape (ty sid : String) (cancelAt : Option Nat) (t0 t1 : Nat) :
    (supervisorTrace ty sid cancelAt t0 t1).head? = some (Write.runningW sid t0) ∧
      shapeOKW (supervisorTrace ty sid cancelAt t0 t1) = true ∧
      countTermW (supervisorTrace ty sid cancelAt t0 t1) =
        (match totalSteps ty, cancelAt with
          | none, _ => 2
          | some n, some c => if c < n then 0 else 1
          | some _, none => 1) := by
  cases hty : totalSteps ty with
  | none =>
    refine ⟨by simp [supervisorTrace, hty], ?_, ?_⟩
    · simp [supervisorTrace, hty, shapeOKW, isProgW, isTermW, List.dropWhile]
    · simp [supervisorTrace, hty, countTermW, isTermW, List.filter]
  | some n =>
    have hfilterpw : ∀ c : Nat, (progressWrites c n).filter isTermW = [] := by
      intro c
      refine filter_eq_nil_of_all_neg isTermW (progressWrites c n) ?_
      intro x hx
      obtain ⟨k, _, rfl⟩ := List.mem_map.mp hx
      rfl
    have hshape : ∀ c : Nat,
        shapeOKW (Write.runningW sid t0 :: (progressWrites c n ++ [Write.completedW t1])) =
          true := by
      intro c
      show (List.dropWhile isProgW (progressWrites c n ++ [Write.completedW t1])).all
        isTermW = true
      rw [dropWhile_append_of_all isProgW _ _ (progressWrites_all_prog c n)]
      rfl
    have hcount : ∀ c : Nat,
        countTermW (Write.runningW sid t0 :: (progressWrites c n ++ [Write.completedW t1])) =
          1 := by
      intro c
      unfold countTermW
      rw [List.filter_cons]
      simp only [isTermW, Bool.false_eq_true, ite_false, List.filter_append, hfilterpw c]
      rfl
    have hshapec : ∀ c : Nat,
        shapeOKW (Write.runningW sid t0 :: progressWrites c n) = true := by
      intro c
      show (List.dropWhile isProgW (progressWrites c n)).all isTermW = true
      rw [← List.append_nil (progressWrites c n),
        dropWhile_append_of_all isProgW _ _ (progressWrites_all_prog c n)]
      rfl
    have hcountc : ∀ c : Nat,
        countTermW (Write.runningW sid t0 :: progressWrites c n) = 0 := by
      intro c
      unfold countTermW
      rw [List.filter_cons]
      simp only [isTermW, Bool.false_eq_true, ite_false, hfilterpw c]
      rfl
    cases cancelAt with
    | none =>
      refine ⟨by simp [supervisorTrace, hty], ?_, ?_⟩
      · simpa [supervisorTrace, hty] using hshape n
      · simpa [supervisorTrace, hty] using hcount n
    | some c =>
      by_cases hc : c < n
      · refine ⟨by simp [supervisorTrace, hty, hc], ?_, ?_⟩
        · simpa [supervisorTrace, hty, hc] using hshapec c
        · simpa [supervisorTrace, hty, hc] using hcountc c
      · refine ⟨by simp [supervisorTrace, hty, hc], ?_, ?_⟩
        · simpa [supervisorTrace, hty, hc] using hshape n
        · simpa [supervisorTrace, hty, hc] using hcount n

/-! ### Durable-state evolution of one scheduled job (C7, C8) -/

/-- The completed-status write of `_execute_task`
(`progress=100.0, completed_at`). -/
def writeCompletedDB (db : DB) (tid : String) (t1 : Nat) : DB :=
  update_task_status db tid TaskStatus.completed ⟨none, none, none, some t1, some 100⟩

/-- The failed-status write of `_execute_task` / `_schedule_task`
(`error_message, completed_at`). -/
def writeFailedDB (db : DB) (tid msg : String) (t1 : Nat) : DB :=
  update_task_status db tid TaskStatus.failed ⟨none, none, some msg, some t1, none⟩

/-- Store contents after the first `c` progress writes of an `n`-step
routine, starting from the post-running-write state `d1`.  Each progress
write stores an absolute value, so the state after write `j` is the single
write of `stepProgress (j-1) n` applied to `d1`. -/
def afterProgress (d1 : DB) (tid : String) (c n : Nat) : DB :=
  if c = 0 then d1 else update_task_progress d1 tid (stepProgress (c - 1) n)

/-- Every durable state the store passes through for one scheduled job, in
order: the initial state, the state after the running write, the state after
each progress write, and the state(s) after the finishing writes.  A
cancellation requested after `c < n` completed steps interrupts the loop:
`cancel_task` writes Cancelled and the supervisor writes nothing further;
an unknown type produces the two failed writes; otherwise the routine
completes and the completed write lands. -/
def scenarioStates (db0 : DB) (tid sid ty : String) (cancelAt : Option Nat)
    (t0 t1 : Nat) : List DB :=
  let d1 := writeRunning db0 tid sid t0
  match totalSteps ty with
  | none =>
      let d2 := writeFailedDB d1 tid (unknownTypeMsg ty) t1
      [db0, d1, d2, writeFailedDB d2 tid (unknownTypeMsg ty) t1]
  | some n =>
    match cancelAt with
    | some c =>
      if c < n then
        [db0, d1] ++
          (List.range c).map (fun k => update_task_progress d1 tid (stepProgress k n)) ++
          [dbWriteCancelled (afterProgress d1 tid c n) tid none]
      else
        [db0, d1] ++
          (List.range n).map (fun k => update_task_progress d1 tid (stepProgress k n)) ++
          [writeCompletedDB (afterProgress d1 tid n n) tid t1]
    | none =>
        [db0, d1] ++
          (List.range n).map (fun k => update_task_progress d1 tid (stepProgress k n)) ++
          [writeCompletedDB (afterProgress d1 tid n n) tid t1]

/-- The last element of `scenarioStates`: the durable state once the job's
story is over. -/
def scenarioFinal (db0 : DB) (tid sid ty : String) (cancelAt : Option Nat)
    (t0 t1 : Nat) : DB :=
  let d1 := writeRunning db0 tid sid t0
  match totalSteps ty with
  | none => writeFailedDB (writeFailedDB d1 tid (unknownTypeMsg ty) t1) tid
      (unknownTypeMsg ty) t1
  | some n =>
    match cancelAt with
    | some c =>
      if c < n then dbWriteCancelled (afterProgress d1 tid c n) tid none
      else writeCompletedDB (afterProgress d1 tid n n) tid t1
    | none => writeCompletedDB (afterProgress d1 tid n n) tid t1

theorem getTaskDB_writeRunning (db : DB) (tid sid : String) (t0 : Nat) :
    getTaskDB (writeRunning db tid sid t0) tid =
      (getTaskDB db tid).map (fun t =>
        applyExtra ⟨some sid, some t0, none, none, none⟩
          { t with status := TaskStatus.running }) := by
  unfold writeRunning
  exact getTaskDB_update_task_status db tid TaskStatus.running _

theorem getTaskDB_writeFailedDB (db : DB) (tid msg : String) (t1 : Nat) :
    getTaskDB (writeFailedDB db tid msg t1) tid =
      (getTaskDB db tid).map (fun t =>
        applyExtra ⟨none, none, some msg, some t1, none⟩
          { t with status := TaskStatus.failed }) := by
  unfold writeFailedDB
  exact getTaskDB_update_task_status db tid TaskStatus.failed _

theorem dbWriteCancelled_none_eq (db : DB) (tid : String) :
    dbWriteCancelled db tid none =
      dbUpdateTask db tid (fun t => { t with status := TaskStatus.cancelled }) := rfl

theorem getTaskDB_dbWriteCancelled (db : DB) (tid : String) :
    getTaskDB (dbWriteCancelled db tid none) tid =
      (getTaskDB db tid).map (fun t => { t with status := TaskStatus.cancelled }) := by
  rw [dbWriteCancelled_none_eq]
  exact getTaskDB_dbUpdateTask db tid _ (fun t => rfl) (fun t => rfl)

/-! ### C7 -/

/-- Final progress of a job cancelled after `c` of `n` steps, for a job
that started at progress 0. -/
def progressAfterSteps (c n : Nat) : ℚ :=
  if c = 0 then 0 else stepProgress (c - 1) n

theorem stepProgress_lt_100 (c n : Nat) (hc0 : c ≠ 0) (hc : c < n) :
    stepProgress (c - 1) n < 100 := by
  unfold stepProgress
  have hn0 : (0 : ℚ) < (n : ℚ) := by
    exact_mod_cast Nat.pos_of_ne_zero (fun h => by omega)
  have hsucc : (c - 1) + 1 = c := Nat.succ_pred_eq_of_pos (Nat.pos_of_ne_zero hc0)
  rw [hsucc]
  have hlt : ((c : ℚ) / (n : ℚ)) < 1 := by
    rw [div_lt_one hn0]
    exact_mod_cast hc
  calc ((c : ℚ) / (n : ℚ)) * 100 < 1 * 100 := by
        exact mul_lt_mul_of_pos_right hlt (by norm_num)
    _ = 100 := one_mul 100

/-- C7 confirmed: when cancellation is requested after `c < n` completed
steps of an `n`-step routine, the job's terminal durable record is
Cancelled — never Failed — with its error field still empty and its progress
strictly below 100 (`c/n·100`, or the initial 0 when no step finished).
The cancellation surfaces as `asyncio.CancelledError`, which bypasses
`_execute_task`'s `except Exception` handler, so no failed write occurs. -/
theorem c7_cancel_terminal (db0 : DB) (tid sid ty : String) (c n t0 t1 : Nat)
    (t : Task) (hfind : getTaskDB db0 tid = some t)
    (herr : t.error_message = none) (hprog : t.progress = 0)
    (hn : totalSteps ty = some n) (hc : c < n) :
    statusOf (scenarioFinal db0 tid sid ty (some c) t0 t1) tid =
        some TaskStatus.cancelled ∧
      errorOf (scenarioFinal db0 tid sid ty (some c) t0 t1) tid = some none ∧
      progressOf (scenarioFinal db0 tid sid ty (some c) t0 t1) tid =
        some (progressAfterSteps c n) ∧
      progressAfterSteps c n < 100 := by
  have hfinal : scenarioFinal db0 tid sid ty (some c) t0 t1 =
      dbWriteCancelled (afterProgress (writeRunning db0 tid sid t0) tid c n) tid none := by
    unfold scenarioFinal
    rw [hn]
    simp [hc]
  have h1 : getTaskDB (writeRunning db0 tid sid t0) tid =
      some (applyExtra ⟨some sid, some t0, none, none, none⟩
        { t with status := TaskStatus.running }) := by
    rw [getTaskDB_writeRunning, hfind]
    rfl
  have h2 : ∃ t2, getTaskDB (afterProgress (writeRunning db0 tid sid t0) tid c n) tid =
      some t2 ∧ t2.status = TaskStatus.running ∧ t2.error_message = t.error_message ∧
      t2.progress = progressAfterSteps c n := by
    unfold afterProgress progressAfterSteps
    by_cases hc0 : c = 0
    · refine ⟨applyExtra ⟨some sid, some t0, none, none, none⟩
        { t with status := TaskStatus.running }, ?_, rfl, rfl, ?_⟩
      · rw [if_pos hc0]
        exact h1
      · rw [if_pos hc0]
        exact hprog
    · rw [if_neg hc0, if_neg hc0, getTaskDB_update_task_progress, h1]
      exact ⟨_, rfl, rfl, rfl, rfl⟩
  obtain ⟨t2, ht2, ht2s, ht2e, ht2p⟩ := h2
  have h3 : getTaskDB (scenarioFinal db0 tid sid ty (some c) t0 t1) tid =
      some { t2 with status := TaskStatus.cancelled } := by
    rw [hfinal, getTaskDB_dbWriteCancelled, ht2]
    rfl
  refine ⟨?_, ?_, ?_, ?_⟩
  · unfold statusOf
    rw [h3]
    rfl
  · unfold errorOf
    rw [h3]
    simp [ht2e, herr]
  · unfold progressOf
    rw [h3]
    simp [ht2p]
  · unfold progressAfterSteps
    by_cases hc0 : c = 0
    · rw [if_pos hc0]; norm_num
    · rw [if_neg hc0]
      exact stepProgress_lt_100 c n hc0 hc

/-- A freshly created pending training job on a one-slot server. -/
def exTask7 : Task :=
  ⟨"t1", "u1", "training", TaskStatus.pending, 0, none, none, none, none, none⟩

def exDB7 : DB := ⟨[exTask7], [⟨"s1", "alpha", true, some 1⟩]⟩

/-- Witness for `c7_cancel_terminal`: cancelling the training job of `exDB7`
after 1 of 100 steps yields a Cancelled record with empty error and
progress 1 < 100. -/
theorem c7_cancel_terminal_witness :
    statusOf (scenarioFinal exDB7 "t1" "s1" "training" (some 1) 3 9) "t1" =
        some TaskStatus.cancelled ∧
      errorOf (scenarioFinal exDB7 "t1" "s1" "training" (some 1) 3 9) "t1" = some none ∧
      progressOf (scenarioFinal exDB7 "t1" "s1" "training" (some 1) 3 9) "t1" =
        some (progressAfterSteps 1 100) ∧
      progressAfterSteps 1 100 < 100 :=
  c7_cancel_terminal exDB7 "t1" "s1" "training" 1 100 3 9 exTask7
    (by decide) (by decide) (by decide) (by decide) (by decide)

/-! ### C8 -/

/-- A pending job of unknown type `"quantum"` next to an active one-slot
server with no running tasks. -/
def exTask8 : Task :=
  ⟨"t1", "u1", "quantum", TaskStatus.pending, 0, none, none, none, none, none⟩

def exDB8 : DB := ⟨[exTask8], [⟨"s1", "alpha", true, some 1⟩]⟩

/-- C8 counterexample: scheduling the unknown-type job does claim worker
occupancy for the attempt — `_schedule_task` writes `status=running` with
the worker id before `_execute_task` raises, so an intermediate durable
state has a higher running-task count on the worker than the initial state,
contradicting the claim's "no worker occupancy ever claimed". -/
theorem c8_counterexample :
    find_available_server exDB8 = some ⟨"s1", "alpha", true, some 1⟩ ∧
      runningTasksOn exDB8 "s1" = 0 ∧
      ¬ (∀ d ∈ scenarioStates exDB8 "t1" "s1" "quantum" none 0 1,
          runningTasksOn d "s1" = runningTasksOn exDB8 "s1") := by
  decide

/-- C8 amended: running an unknown-type job raises before any step, leaving
a terminal Failed record with the non-empty dispatch error message, the
initial progress 0, and a set completion time — but worker occupancy is
transiently claimed: the states passed through include the post-running
write, in which the job is Running with the worker assigned. -/
theorem c8_unknown_type (db0 : DB) (tid sid ty : String) (t0 t1 : Nat) (t : Task)
    (hfind : getTaskDB db0 tid = some t) (hty : totalSteps ty = none)
    (hprog : t.progress = 0) :
    statusOf (scenarioFinal db0 tid sid ty none t0 t1) tid = some TaskStatus.failed ∧
      errorOf (scenarioFinal db0 tid sid ty none t0 t1) tid =
        some (some (unknownTypeMsg ty)) ∧
      (unknownTypeMsg ty).length ≠ 0 ∧
      progressOf (scenarioFinal db0 tid sid ty none t0 t1) tid = some 0 ∧
      (getTaskDB (scenarioFinal db0 tid sid ty none t0 t1) tid).map Task.completed_at =
        some (some t1) ∧
      writeRunning db0 tid sid t0 ∈ scenarioStates db0 tid sid ty none t0 t1 ∧
      statusOf (writeRunning db0 tid sid t0) tid = some TaskStatus.running ∧
      (getTaskDB (writeRunning db0 tid sid t0) tid).map Task.gpu_server_id =
        some (some sid) := by
  have h1 : getTaskDB (writeRunning db0 tid sid t0) tid =
      some (applyExtra ⟨some sid, some t0, none, none, none⟩
        { t with status := TaskStatus.running }) := by
    rw [getTaskDB_writeRunning, hfind]
    rfl
  have hfinal : scenarioFinal db0 tid sid ty none t0 t1 =
      writeFailedDB (writeFailedDB (writeRunning db0 tid sid t0) tid
        (unknownTypeMsg ty) t1) tid (unknownTypeMsg ty) t1 := by
    unfold scenarioFinal
    rw [hty]
  have h2 : getTaskDB (writeFailedDB (writeRunning db0 tid sid t0) tid
      (unknownTypeMsg ty) t1) tid =
      some (applyExtra ⟨none, none, some (unknownTypeMsg ty), some t1, none⟩
        { (applyExtra ⟨some sid, some t0, none, none, none⟩
            { t with status := TaskStatus.running }) with
          status := TaskStatus.failed }) := by
    rw [getTaskDB_writeFailedDB, h1]
    rfl
  have h3 : getTaskDB (scenarioFinal db0 tid sid ty none t0 t1) tid =
      some (applyExtra ⟨none, none, some (unknownTypeMsg ty), some t1, none⟩
        { (applyExtra ⟨none, none, some (unknownTypeMsg ty), some t1, none⟩
            { (applyExtra ⟨some sid, some t0, none, none, none⟩
                { t with status := TaskStatus.running }) with
              status := TaskStatus.failed }) with
          status := TaskStatus.failed }) := by
    rw [hfinal, getTaskDB_writeFailedDB, h2]
    rfl
  refine ⟨?_, ?_, ?_, ?_, ?_, ?_, ?_, ?_⟩
  · unfold statusOf
    rw [h3]
    rfl
  · unfold errorOf
    rw [h3]
    rfl
  · unfold unknownTypeMsg
    rw [String.length_append]
    have hbase : ("不支持的任务类型: " : String).length = 10 := by decide
    omega
  · unfold progressOf
    rw [h3]
    simp [applyExtra, hprog]
  · rw [h3]
    rfl
  · unfold scenarioStates
    rw [hty]
    simp
  · unfold statusOf
    rw [h1]
    rfl
  · rw [h1]
    rfl

/-- Witness for `c8_unknown_type` on `exDB8`. -/
theorem c8_unknown_type_witness :
    statusOf (scenarioFinal exDB8 "t1" "s1" "quantum" none 0 1) "t1" =
        some TaskStatus.failed ∧
      errorOf (scenarioFinal exDB8 "t1" "s1" "quantum" none 0 1) "t1" =
        some (some (unknownTypeMsg "quantum")) ∧
      (unknownTypeMsg "quantum").length ≠ 0 ∧
      progressOf (scenarioFinal exDB8 "t1" "s1" "quantum" none 0 1) "t1" = some 0 ∧
      (getTaskDB (scenarioFinal exDB8 "t1" "s1" "quantum" none 0 1) "t1").map
        Task.completed_at = some (some 1) ∧
      writeRunning exDB8 "t1" "s1" 0 ∈ scenarioStates exDB8 "t1" "s1" "quantum" none 0 1 ∧
      statusOf (writeRunning exDB8 "t1" "s1" 0) "t1" = some TaskStatus.running ∧
      (getTaskDB (writeRunning exDB8 "t1" "s1" 0) "t1").map Task.gpu_server_id =
        some (some "s1") :=
  c8_unknown_type exDB8 "t1" "s1" "quantum" 0 1 exTask8 (by decide) (by decide) (by decide)

/-! ### C5: the retry endpoint of `task_routes.py` -/

/-- The reset dict of `retry_task`: `status='pending', progress=0.0,
error_message=None, result=None, started_at=None, completed_at=None`.
`gpu_server_id` is not among the written keys. -/
def resetRetry (t : Task) : Task :=
  { t with
    status := TaskStatus.pending,
    progress := 0,
    error_message := none,
    result := none,
    started_at := none,
    completed_at := none }

/-- `retry_task` of `task_routes.py`: 404 when no task matches id and user,
400 unless the stored status is `failed` or `cancelled`, otherwise the reset
dict is written to every matching row and the first updated row is returned.
The HTTP error code is the `Except.error` payload. -/
def retry_task (db : DB) (uid tid : String) : Except Nat (Task × DB) :=
  match db.tasks.find? (taskMatches tid (some uid)) with
  | none => Except.error 404
  | some t =>
    if t.status == TaskStatus.failed || t.status == TaskStatus.cancelled then
      Except.ok (resetRetry t,
        ⟨db.tasks.map (fun u => if taskMatches tid (some uid) u then resetRetry u else u),
          db.servers⟩)
    else Except.error 400

/-- A failed task that had been assigned to worker `s1`. -/
def exTask5 : Task :=
  ⟨"t1", "u1", "training", TaskStatus.failed, 40, some "s1", some 3, some 9,
    some "step crashed", none⟩

def exDB5 : DB := ⟨[exTask5], []⟩

/-- C5 counterexample: retrying the failed task resets status, progress,
error, result and the timestamps, but the assigned worker id is **not**
cleared — the returned record still carries `gpu_server_id = "s1"`,
contradicting the claim that every lifecycle field is reset. -/
theorem c5_counterexample :
    (getTaskDB exDB5 "t1").map Task.status = some TaskStatus.failed ∧
      (retry_task exDB5 "u1" "t1").toOption.map (fun r => r.1.status) =
        some TaskStatus.pending ∧
      (retry_task exDB5 "u1" "t1").toOption.map (fun r => r.1.gpu_server_id) =
        some (some "s1") := by
  decide

/-- C5 amended: retrying a Failed or Cancelled job resets status to Pending,
progress to 0, and clears error message, result, startedAt and completedAt —
but leaves the assigned worker id untouched; a job in any other status is
rejected with 400, and a missing job with 404. -/
theorem c5_retry_resets (db : DB) (uid tid : String) (t : Task)
    (hfind : db.tasks.find? (taskMatches tid (some uid)) = some t) :
    ((t.status = TaskStatus.failed ∨ t.status = TaskStatus.cancelled) →
      ∃ db', retry_task db uid tid = Except.ok (resetRetry t, db') ∧
        (resetRetry t).status = TaskStatus.pending ∧
        (resetRetry t).progress = 0 ∧
        (resetRetry t).error_message = none ∧
        (resetRetry t).result = none ∧
        (resetRetry t).started_at = none ∧
        (resetRetry t).completed_at = none ∧
        (resetRetry t).gpu_server_id = t.gpu_server_id) ∧
    ((t.status ≠ TaskStatus.failed ∧ t.status ≠ TaskStatus.cancelled) →
      retry_task db uid tid = Except.error 400) ∧
    (∀ db2 : DB, db2.tasks.find? (taskMatches tid (some uid)) = none →
      retry_task db2 uid tid = Except.error 404) := by
  refine ⟨?_, ?_, ?_⟩
  · intro hst
    refine ⟨⟨db.tasks.map (fun u =>
        if taskMatches tid (some uid) u then resetRetry u else u), db.servers⟩,
      ?_, rfl, rfl, rfl, rfl, rfl, rfl, rfl⟩
    unfold retry_task
    rw [hfind]
    rcases hst with h | h <;> simp [h]
  · intro hst
    unfold retry_task
    rw [hfind]
    have h1 : (t.status == TaskStatus.failed) = false := by
      simpa using hst.1
    have h2 : (t.status == TaskStatus.cancelled) = false := by
      simpa using hst.2
    simp [h1, h2]
  · intro db2 hnone
    unfold retry_task
    rw [hnone]

/-- Witness for `c5_retry_resets` on the failed task of `exDB5`. -/
theorem c5_retry_resets_witness :
    (resetRetry exTask5).status = TaskStatus.pending ∧
      (resetRetry exTask5).progress = 0 ∧
      (resetRetry exTask5).error_message = none ∧
      (resetRetry exTask5).gpu_server_id = exTask5.gpu_server_id := by
  obtain ⟨hok, -, -⟩ := c5_retry_resets exDB5 "u1" "t1" exTask5 (by decide)
  obtain ⟨db', -, h1, h2, h3, -, -, -, h4⟩ := hok (Or.inl (by decide))
  exact ⟨h1, h2, h3, h4⟩

end OwlWorkshop
